import Mathlib

/-!
Shallow embedding of the operand-ownership classifier in
`lib/SIL/IR/OperandOwnership.cpp`.

The classifier answers, for one operand of one instruction, which ownership
kinds the operand's value may have and, per accepted kind, whether the use
ends the value's lifetime.  The value domain (`ValueOwnershipKind`,
`UseLifetimeConstraint`, `OperandOwnershipKindMap`, the kind merge and the
forwarding lifetime constraint) lives in headers outside this translation
unit; those parts are modelled from the spec (sections 3, 4.1, 4.2, 4.5),
and each such definition says so in its doc comment.  Every `visit...`
function below is translated directly from the correspondingly named
function or macro expansion of `OperandOwnership.cpp`.
-/

namespace OperandOwnership

/-- Modelled from the spec: `ValueOwnershipKind` (spec section 3), the closed
enumeration of ownership disciplines.  `none` is the trivial bottom kind,
`owned` and `guaranteed` are incomparable.  The C++ enum lives in
`SILValue.h`, outside the embedded translation unit. -/
inductive OwnershipKind where
  | none
  | owned
  | guaranteed
deriving DecidableEq, Repr

/-- Modelled from the spec: `UseLifetimeConstraint` (spec section 3) — whether
a use is the last permitted use of the value. -/
inductive UseLifetimeConstraint where
  | lifetimeEnding
  | nonLifetimeEnding
deriving DecidableEq, Repr

/-- Modelled from the spec: `OperandOwnershipKindMap` (spec sections 3, 4.1) —
a partial map from ownership kinds to required lifetime constraints, with one
optional entry per kind of the closed enumeration.  The C++ type lives in
`OwnershipUtils.h`, outside the embedded translation unit. -/
structure OperandOwnershipKindMap where
  noneConstraint : Option UseLifetimeConstraint
  ownedConstraint : Option UseLifetimeConstraint
  guaranteedConstraint : Option UseLifetimeConstraint
deriving DecidableEq, Repr

namespace OperandOwnershipKindMap

/-- Modelled from the spec: the empty map — no ownership kind is acceptable
(spec section 3, case (a)). -/
def empty : OperandOwnershipKindMap :=
  ⟨Option.none, Option.none, Option.none⟩

/-- Modelled from the spec: `Map::allLive()` — every ownership kind is
acceptable and none is lifetime-ending (spec section 3, case (b)). -/
def allLive : OperandOwnershipKindMap :=
  ⟨some .nonLifetimeEnding, some .nonLifetimeEnding, some .nonLifetimeEnding⟩

/-- Look up the constraint the map requires for a kind; `Option.none` means
the kind is incompatible. -/
def lookup (m : OperandOwnershipKindMap) : OwnershipKind → Option UseLifetimeConstraint
  | .none => m.noneConstraint
  | .owned => m.ownedConstraint
  | .guaranteed => m.guaranteedConstraint

/-- Modelled from the spec: `addCompatibilityConstraint` — record that `k` is
acceptable with constraint `c` (spec section 4.1 construction helpers). -/
def addCompatibilityConstraint (m : OperandOwnershipKindMap)
    (k : OwnershipKind) (c : UseLifetimeConstraint) : OperandOwnershipKindMap :=
  match k with
  | .none => { m with noneConstraint := some c }
  | .owned => { m with ownedConstraint := some c }
  | .guaranteed => { m with guaranteedConstraint := some c }

/-- Modelled from the spec: `Map::compatibilityMap(kind, constraint)` — the
single-entry map (spec section 4.1 construction helpers). -/
def compatibilityMap (k : OwnershipKind) (c : UseLifetimeConstraint) :
    OperandOwnershipKindMap :=
  empty.addCompatibilityConstraint k c

end OperandOwnershipKindMap

/-- Modelled from the spec: `ValueOwnershipKind::getForwardingLifetimeConstraint`
— the kind's natural forwarding constraint: ending for `owned`, non-ending for
`none` and `guaranteed` (spec sections 4.2, 4.5). -/
def OwnershipKind.getForwardingLifetimeConstraint :
    OwnershipKind → UseLifetimeConstraint
  | .owned => .lifetimeEnding
  | .none => .nonLifetimeEnding
  | .guaranteed => .nonLifetimeEnding

/-- Modelled from the spec: the lattice join of two ownership kinds — `none`
is the identity, equal kinds join to themselves, and `owned` vs `guaranteed`
has no upper bound, so the join is undefined (spec sections 3, 4.2). -/
def OwnershipKind.join : OwnershipKind → OwnershipKind → Option OwnershipKind
  | .none, k => some k
  | k, .none => some k
  | .owned, .owned => some .owned
  | .guaranteed, .guaranteed => some .guaranteed
  | .owned, .guaranteed => Option.none
  | .guaranteed, .owned => Option.none

/-- Modelled from the spec: `ValueOwnershipKind::merge` — fold a sequence of
kinds with the lattice join starting from the bottom kind `none`; an undefined
pairwise join makes the whole merge fail (spec section 4.2). -/
def OwnershipKind.merge (ks : List OwnershipKind) : Option OwnershipKind :=
  ks.foldl (fun acc k => acc.bind (fun a => a.join k)) (some .none)

/-- Modelled from the spec: `ParameterConvention` (spec section 4.4) — the
calling-convention tag of a parameter or of the callee itself.  Constructor
names follow the C++ enumerators. -/
inductive ParameterConvention where
  | Indirect_In
  | Indirect_In_Constant
  | Indirect_In_Guaranteed
  | Indirect_Inout
  | Indirect_InoutAliasable
  | Direct_Owned
  | Direct_Unowned
  | Direct_Guaranteed
deriving DecidableEq, Repr

/-- An operand as the classifier sees it: the identity of the referenced
value (`value`), that value's ownership kind, and whether the operand is a
type-dependent (phantom) operand of its instruction. -/
structure Operand where
  value : Nat
  kind : OwnershipKind
  typeDependent : Bool
deriving DecidableEq, Repr

/-- The outcome of one classification: either a compatibility map, or the
fatal internal-consistency error raised by `llvm_unreachable` /
`llvm::report_fatal_error` in the source. -/
inductive ClassifyResult where
  | map (m : OperandOwnershipKindMap)
  | fatal
deriving DecidableEq, Repr

/-- `OperandOwnershipKindClassifier::visitForwardingInst`: merge the ownership
kinds of the non-type-dependent operands; a failed merge yields the empty map,
a merged kind of `none` yields all-live, and otherwise the merged kind is
bound to its forwarding lifetime constraint. -/
def visitForwardingInst (ops : List Operand) : OperandOwnershipKindMap :=
  match OwnershipKind.merge
      ((ops.filter (fun o => !o.typeDependent)).map Operand.kind) with
  | Option.none => OperandOwnershipKindMap.empty
  | some kind =>
    if kind = OwnershipKind.none then OperandOwnershipKindMap.allLive
    else OperandOwnershipKindMap.compatibilityMap kind
      kind.getForwardingLifetimeConstraint

/-- `OperandOwnershipKindClassifier::visitApplyParameter`: a non-`owned`
required kind also accepts `owned` non-lifetime-ending; a required `owned`
kind is the single entry. -/
def visitApplyParameter (kind : OwnershipKind)
    (requirement : UseLifetimeConstraint) : OperandOwnershipKindMap :=
  if kind ≠ OwnershipKind.owned then
    (OperandOwnershipKindMap.compatibilityMap kind
        requirement).addCompatibilityConstraint OwnershipKind.owned
      UseLifetimeConstraint.nonLifetimeEnding
  else OperandOwnershipKindMap.compatibilityMap kind requirement

/-- `OperandOwnershipKindClassifier::visitCallee`: classify the callee operand
from the substituted callee type's callee convention; inout conventions are an
internal fatal error, and `Direct_Guaranteed` is all-live for a non-escaping
callee type and otherwise accepts guaranteed or owned, both non-ending. -/
def visitCallee (calleeConv : ParameterConvention) (isNoEscape : Bool) :
    ClassifyResult :=
  match calleeConv with
  | .Indirect_In =>
    .map (OperandOwnershipKindMap.compatibilityMap .owned .lifetimeEnding)
  | .Indirect_In_Constant =>
    .map (OperandOwnershipKindMap.compatibilityMap .owned .lifetimeEnding)
  | .Indirect_In_Guaranteed =>
    .map (OperandOwnershipKindMap.compatibilityMap .guaranteed .nonLifetimeEnding)
  | .Indirect_Inout => .fatal
  | .Indirect_InoutAliasable => .fatal
  | .Direct_Unowned => .map OperandOwnershipKindMap.allLive
  | .Direct_Owned =>
    .map (OperandOwnershipKindMap.compatibilityMap .owned .lifetimeEnding)
  | .Direct_Guaranteed =>
    if isNoEscape then .map OperandOwnershipKindMap.allLive
    else
      .map ((OperandOwnershipKindMap.compatibilityMap .guaranteed
          .nonLifetimeEnding).addCompatibilityConstraint .owned
        .nonLifetimeEnding)

/-- The role of one operand of a full apply site, as the predicates
`isCalleeOperand`, `isIndirectResultOperand`, `isTypeDependentOperand` and the
argument-index lookup of `visitFullApply` distinguish them; an argument role
carries the formal parameter convention resolved for its position. -/
inductive ApplyOperandRole where
  | callee
  | indirectResult
  | typeDependent
  | argument (conv : ParameterConvention)
deriving DecidableEq, Repr

/-- `OperandOwnershipKindClassifier::visitFullApply`: dispatch on the
operand's role; the callee operand goes to `visitCallee`, indirect results are
all-live, type-dependent operands get the empty map, and arguments are mapped
through their parameter convention (with `Indirect_In` and
`Indirect_In_Guaranteed` all-live when addresses are lowered). -/
def visitFullApply (calleeConv : ParameterConvention) (isNoEscape : Bool)
    (useLoweredAddresses : Bool) (role : ApplyOperandRole) : ClassifyResult :=
  match role with
  | .callee => visitCallee calleeConv isNoEscape
  | .indirectResult => .map OperandOwnershipKindMap.allLive
  | .typeDependent => .map OperandOwnershipKindMap.empty
  | .argument conv =>
    match conv with
    | .Direct_Owned => .map (visitApplyParameter .owned .lifetimeEnding)
    | .Direct_Unowned => .map OperandOwnershipKindMap.allLive
    | .Indirect_In =>
      if useLoweredAddresses then .map OperandOwnershipKindMap.allLive
      else .map (visitApplyParameter .owned .lifetimeEnding)
    | .Indirect_In_Guaranteed =>
      if useLoweredAddresses then .map OperandOwnershipKindMap.allLive
      else .map (visitApplyParameter .guaranteed .nonLifetimeEnding)
    | .Indirect_In_Constant => .map OperandOwnershipKindMap.allLive
    | .Indirect_Inout => .map OperandOwnershipKindMap.allLive
    | .Indirect_InoutAliasable => .map OperandOwnershipKindMap.allLive
    | .Direct_Guaranteed =>
      .map (visitApplyParameter .guaranteed .nonLifetimeEnding)

/-- `OperandOwnershipKindClassifier::visitBranchInst`: look up the destination
block's argument at the operand's index; a `guaranteed` destination parameter
makes the branch lifetime-ending, otherwise the declared kind is bound to its
forwarding constraint.  An index with no matching destination argument would
fail the destination lookup, an internal error. -/
def visitBranchInst (destKinds : List OwnershipKind) (opIndex : Nat) :
    ClassifyResult :=
  match destKinds.get? opIndex with
  | Option.none => .fatal
  | some destKind =>
    if destKind = OwnershipKind.guaranteed then
      .map (OperandOwnershipKindMap.compatibilityMap destKind .lifetimeEnding)
    else
      .map (OperandOwnershipKindMap.compatibilityMap destKind
        destKind.getForwardingLifetimeConstraint)

/-- `OperandOwnershipKindClassifier::visitStoreInst`: the operand whose value
is the stored source requires `owned`, lifetime-ending; every other operand
(the destination address) is all-live. -/
def visitStoreInst (src : Nat) (o : Operand) : OperandOwnershipKindMap :=
  if o.value ≠ src then OperandOwnershipKindMap.allLive
  else OperandOwnershipKindMap.compatibilityMap .owned .lifetimeEnding

/-- `OperandOwnershipKindClassifier::visitStoreBorrowInst`: the source operand
requires `guaranteed`, non-lifetime-ending; every other operand is
all-live. -/
def visitStoreBorrowInst (src : Nat) (o : Operand) : OperandOwnershipKindMap :=
  if o.value = src then
    OperandOwnershipKindMap.compatibilityMap .guaranteed .nonLifetimeEnding
  else OperandOwnershipKindMap.allLive

/-- `OperandOwnershipKindClassifier::visitReturnInst`: a trivially typed
operand is all-live; otherwise the declared ownership kinds of the function's
direct results are merged — no direct results or a failed merge yield the
empty map, and a merged kind is bound to its forwarding constraint. -/
def visitReturnInst (operandTypeIsTrivial : Bool)
    (directResultKinds : List OwnershipKind) : OperandOwnershipKindMap :=
  if operandTypeIsTrivial then OperandOwnershipKindMap.allLive
  else if directResultKinds.isEmpty then OperandOwnershipKindMap.empty
  else
    match OwnershipKind.merge directResultKinds with
    | Option.none => OperandOwnershipKindMap.empty
    | some base =>
      OperandOwnershipKindMap.compatibilityMap base
        base.getForwardingLifetimeConstraint

/-- The closed set of builtin primitive identifiers the nested builtin
classifier of `OperandOwnership.cpp` dispatches over.  One constructor per
identifier named in the source file; `llvmIntrinsic` stands for the LLVM
intrinsic case of `visitLLVMIntrinsic`, and `silOperation` stands for the
builtins of the `BUILTIN_SIL_OPERATION` group (modelled from the spec: the
group's member list comes from `Builtins.def`, outside the embedded
translation unit — primitives that are lowered to IR instructions before this
stage). -/
inductive BuiltinKind where
  | llvmIntrinsic
  | ErrorInMain
  | UnexpectedError
  | WillThrow
  | AShr
  | GenericAShr
  | Add
  | GenericAdd
  | Alignof
  | AllocRaw
  | And
  | GenericAnd
  | AssertConf
  | AssignCopyArrayNoAlias
  | AssignCopyArrayFrontToBack
  | AssignCopyArrayBackToFront
  | AssignTakeArray
  | AssumeNonNegative
  | AssumeTrue
  | AtomicLoad
  | AtomicRMW
  | AtomicStore
  | BitCast
  | CanBeObjCClass
  | CondFailMessage
  | CmpXChg
  | CondUnreachable
  | CopyArray
  | DeallocRaw
  | DestroyArray
  | ExactSDiv
  | GenericExactSDiv
  | ExactUDiv
  | GenericExactUDiv
  | ExtractElement
  | FAdd
  | GenericFAdd
  | FCMP_OEQ
  | FCMP_OGE
  | FCMP_OGT
  | FCMP_OLE
  | FCMP_OLT
  | FCMP_ONE
  | FCMP_ORD
  | FCMP_UEQ
  | FCMP_UGE
  | FCMP_UGT
  | FCMP_ULE
  | FCMP_ULT
  | FCMP_UNE
  | FCMP_UNO
  | FDiv
  | GenericFDiv
  | FMul
  | GenericFMul
  | FNeg
  | FPExt
  | FPToSI
  | FPToUI
  | FPTrunc
  | FRem
  | GenericFRem
  | FSub
  | GenericFSub
  | Fence
  | GetObjCTypeEncoding
  | ICMP_EQ
  | ICMP_NE
  | ICMP_SGE
  | ICMP_SGT
  | ICMP_SLE
  | ICMP_SLT
  | ICMP_UGE
  | ICMP_UGT
  | ICMP_ULE
  | ICMP_ULT
  | InsertElement
  | IntToFPWithOverflow
  | IntToPtr
  | IsOptionalType
  | IsPOD
  | IsConcrete
  | IsBitwiseTakable
  | IsSameMetatype
  | LShr
  | GenericLShr
  | Mul
  | GenericMul
  | OnFastPath
  | Once
  | OnceWithContext
  | Or
  | GenericOr
  | PtrToInt
  | SAddOver
  | SDiv
  | GenericSDiv
  | SExt
  | SExtOrBitCast
  | SIToFP
  | SMulOver
  | SRem
  | GenericSRem
  | SSubOver
  | SToSCheckedTrunc
  | SToUCheckedTrunc
  | Expect
  | Shl
  | GenericShl
  | Sizeof
  | StaticReport
  | Strideof
  | StringObjectOr
  | Sub
  | GenericSub
  | TakeArrayNoAlias
  | TakeArrayBackToFront
  | TakeArrayFrontToBack
  | Trunc
  | TruncOrBitCast
  | TSanInoutAccess
  | UAddOver
  | UDiv
  | GenericUDiv
  | UIToFP
  | UMulOver
  | URem
  | GenericURem
  | USubOver
  | UToSCheckedTrunc
  | UToUCheckedTrunc
  | Unreachable
  | UnsafeGuaranteedEnd
  | Xor
  | GenericXor
  | ZExt
  | ZExtOrBitCast
  | ZeroInitializer
  | Swift3ImplicitObjCEntrypoint
  | PoundAssert
  | GlobalStringTablePointer
  | TypePtrAuthDiscriminator
  | IntInstrprofIncrement
  | COWBufferForReading
  | UnsafeGuaranteed
  | CancelAsyncTask
  | GetCurrentAsyncTask
  | silOperation
deriving DecidableEq, Repr

/-- `OperandOwnershipKindBuiltinClassifier::check`: the nested exhaustive
dispatch over builtin identifiers.  The `ANY_OWNERSHIP_BUILTIN` group and LLVM
intrinsics are all-live, the `CONSTANT_OWNERSHIP_BUILTIN` group returns its
fixed single-entry map, and the `SHOULD_NEVER_VISIT_BUILTIN` and
`BUILTIN_SIL_OPERATION` groups are fatal internal errors. -/
def checkBuiltin : BuiltinKind → ClassifyResult
  | .llvmIntrinsic => .map OperandOwnershipKindMap.allLive
  | .ErrorInMain => .map OperandOwnershipKindMap.allLive
  | .UnexpectedError => .map OperandOwnershipKindMap.allLive
  | .WillThrow => .map OperandOwnershipKindMap.allLive
  | .AShr => .map OperandOwnershipKindMap.allLive
  | .GenericAShr => .map OperandOwnershipKindMap.allLive
  | .Add => .map OperandOwnershipKindMap.allLive
  | .GenericAdd => .map OperandOwnershipKindMap.allLive
  | .Alignof => .map OperandOwnershipKindMap.allLive
  | .AllocRaw => .map OperandOwnershipKindMap.allLive
  | .And => .map OperandOwnershipKindMap.allLive
  | .GenericAnd => .map OperandOwnershipKindMap.allLive
  | .AssertConf => .map OperandOwnershipKindMap.allLive
  | .AssignCopyArrayNoAlias => .map OperandOwnershipKindMap.allLive
  | .AssignCopyArrayFrontToBack => .map OperandOwnershipKindMap.allLive
  | .AssignCopyArrayBackToFront => .map OperandOwnershipKindMap.allLive
  | .AssignTakeArray => .map OperandOwnershipKindMap.allLive
  | .AssumeNonNegative => .map OperandOwnershipKindMap.allLive
  | .AssumeTrue => .map OperandOwnershipKindMap.allLive
  | .AtomicLoad => .map OperandOwnershipKindMap.allLive
  | .AtomicRMW => .map OperandOwnershipKindMap.allLive
  | .AtomicStore => .map OperandOwnershipKindMap.allLive
  | .BitCast => .map OperandOwnershipKindMap.allLive
  | .CanBeObjCClass => .map OperandOwnershipKindMap.allLive
  | .CondFailMessage => .map OperandOwnershipKindMap.allLive
  | .CmpXChg => .map OperandOwnershipKindMap.allLive
  | .CondUnreachable => .map OperandOwnershipKindMap.allLive
  | .CopyArray => .map OperandOwnershipKindMap.allLive
  | .DeallocRaw => .map OperandOwnershipKindMap.allLive
  | .DestroyArray => .map OperandOwnershipKindMap.allLive
  | .ExactSDiv => .map OperandOwnershipKindMap.allLive
  | .GenericExactSDiv => .map OperandOwnershipKindMap.allLive
  | .ExactUDiv => .map OperandOwnershipKindMap.allLive
  | .GenericExactUDiv => .map OperandOwnershipKindMap.allLive
  | .ExtractElement => .map OperandOwnershipKindMap.allLive
  | .FAdd => .map OperandOwnershipKindMap.allLive
  | .GenericFAdd => .map OperandOwnershipKindMap.allLive
  | .FCMP_OEQ => .map OperandOwnershipKindMap.allLive
  | .FCMP_OGE => .map OperandOwnershipKindMap.allLive
  | .FCMP_OGT => .map OperandOwnershipKindMap.allLive
  | .FCMP_OLE => .map OperandOwnershipKindMap.allLive
  | .FCMP_OLT => .map OperandOwnershipKindMap.allLive
  | .FCMP_ONE => .map OperandOwnershipKindMap.allLive
  | .FCMP_ORD => .map OperandOwnershipKindMap.allLive
  | .FCMP_UEQ => .map OperandOwnershipKindMap.allLive
  | .FCMP_UGE => .map OperandOwnershipKindMap.allLive
  | .FCMP_UGT => .map OperandOwnershipKindMap.allLive
  | .FCMP_ULE => .map OperandOwnershipKindMap.allLive
  | .FCMP_ULT => .map OperandOwnershipKindMap.allLive
  | .FCMP_UNE => .map OperandOwnershipKindMap.allLive
  | .FCMP_UNO => .map OperandOwnershipKindMap.allLive
  | .FDiv => .map OperandOwnershipKindMap.allLive
  | .GenericFDiv => .map OperandOwnershipKindMap.allLive
  | .FMul => .map OperandOwnershipKindMap.allLive
  | .GenericFMul => .map OperandOwnershipKindMap.allLive
  | .FNeg => .map OperandOwnershipKindMap.allLive
  | .FPExt => .map OperandOwnershipKindMap.allLive
  | .FPToSI => .map OperandOwnershipKindMap.allLive
  | .FPToUI => .map OperandOwnershipKindMap.allLive
  | .FPTrunc => .map OperandOwnershipKindMap.allLive
  | .FRem => .map OperandOwnershipKindMap.allLive
  | .GenericFRem => .map OperandOwnershipKindMap.allLive
  | .FSub => .map OperandOwnershipKindMap.allLive
  | .GenericFSub => .map OperandOwnershipKindMap.allLive
  | .Fence => .map OperandOwnershipKindMap.allLive
  | .GetObjCTypeEncoding => .map OperandOwnershipKindMap.allLive
  | .ICMP_EQ => .map OperandOwnershipKindMap.allLive
  | .ICMP_NE => .map OperandOwnershipKindMap.allLive
  | .ICMP_SGE => .map OperandOwnershipKindMap.allLive
  | .ICMP_SGT => .map OperandOwnershipKindMap.allLive
  | .ICMP_SLE => .map OperandOwnershipKindMap.allLive
  | .ICMP_SLT => .map OperandOwnershipKindMap.allLive
  | .ICMP_UGE => .map OperandOwnershipKindMap.allLive
  | .ICMP_UGT => .map OperandOwnershipKindMap.allLive
  | .ICMP_ULE => .map OperandOwnershipKindMap.allLive
  | .ICMP_ULT => .map OperandOwnershipKindMap.allLive
  | .InsertElement => .map OperandOwnershipKindMap.allLive
  | .IntToFPWithOverflow => .map OperandOwnershipKindMap.allLive
  | .IntToPtr => .map OperandOwnershipKindMap.allLive
  | .IsOptionalType => .map OperandOwnershipKindMap.allLive
  | .IsPOD => .map OperandOwnershipKindMap.allLive
  | .IsConcrete => .map OperandOwnershipKindMap.allLive
  | .IsBitwiseTakable => .map OperandOwnershipKindMap.allLive
  | .IsSameMetatype => .map OperandOwnershipKindMap.allLive
  | .LShr => .map OperandOwnershipKindMap.allLive
  | .GenericLShr => .map OperandOwnershipKindMap.allLive
  | .Mul => .map OperandOwnershipKindMap.allLive
  | .GenericMul => .map OperandOwnershipKindMap.allLive
  | .OnFastPath => .map OperandOwnershipKindMap.allLive
  | .Once => .map OperandOwnershipKindMap.allLive
  | .OnceWithContext => .map OperandOwnershipKindMap.allLive
  | .Or => .map OperandOwnershipKindMap.allLive
  | .GenericOr => .map OperandOwnershipKindMap.allLive
  | .PtrToInt => .map OperandOwnershipKindMap.allLive
  | .SAddOver => .map OperandOwnershipKindMap.allLive
  | .SDiv => .map OperandOwnershipKindMap.allLive
  | .GenericSDiv => .map OperandOwnershipKindMap.allLive
  | .SExt => .map OperandOwnershipKindMap.allLive
  | .SExtOrBitCast => .map OperandOwnershipKindMap.allLive
  | .SIToFP => .map OperandOwnershipKindMap.allLive
  | .SMulOver => .map OperandOwnershipKindMap.allLive
  | .SRem => .map OperandOwnershipKindMap.allLive
  | .GenericSRem => .map OperandOwnershipKindMap.allLive
  | .SSubOver => .map OperandOwnershipKindMap.allLive
  | .SToSCheckedTrunc => .map OperandOwnershipKindMap.allLive
  | .SToUCheckedTrunc => .map OperandOwnershipKindMap.allLive
  | .Expect => .map OperandOwnershipKindMap.allLive
  | .Shl => .map OperandOwnershipKindMap.allLive
  | .GenericShl => .map OperandOwnershipKindMap.allLive
  | .Sizeof => .map OperandOwnershipKindMap.allLive
  | .StaticReport => .map OperandOwnershipKindMap.allLive
  | .Strideof => .map OperandOwnershipKindMap.allLive
  | .StringObjectOr => .map OperandOwnershipKindMap.allLive
  | .Sub => .map OperandOwnershipKindMap.allLive
  | .GenericSub => .map OperandOwnershipKindMap.allLive
  | .TakeArrayNoAlias => .map OperandOwnershipKindMap.allLive
  | .TakeArrayBackToFront => .map OperandOwnershipKindMap.allLive
  | .TakeArrayFrontToBack => .map OperandOwnershipKindMap.allLive
  | .Trunc => .map OperandOwnershipKindMap.allLive
  | .TruncOrBitCast => .map OperandOwnershipKindMap.allLive
  | .TSanInoutAccess => .map OperandOwnershipKindMap.allLive
  | .UAddOver => .map OperandOwnershipKindMap.allLive
  | .UDiv => .map OperandOwnershipKindMap.allLive
  | .GenericUDiv => .map OperandOwnershipKindMap.allLive
  | .UIToFP => .map OperandOwnershipKindMap.allLive
  | .UMulOver => .map OperandOwnershipKindMap.allLive
  | .URem => .map OperandOwnershipKindMap.allLive
  | .GenericURem => .map OperandOwnershipKindMap.allLive
  | .USubOver => .map OperandOwnershipKindMap.allLive
  | .UToSCheckedTrunc => .map OperandOwnershipKindMap.allLive
  | .UToUCheckedTrunc => .map OperandOwnershipKindMap.allLive
  | .Unreachable => .map OperandOwnershipKindMap.allLive
  | .UnsafeGuaranteedEnd => .map OperandOwnershipKindMap.allLive
  | .Xor => .map OperandOwnershipKindMap.allLive
  | .GenericXor => .map OperandOwnershipKindMap.allLive
  | .ZExt => .map OperandOwnershipKindMap.allLive
  | .ZExtOrBitCast => .map OperandOwnershipKindMap.allLive
  | .ZeroInitializer => .map OperandOwnershipKindMap.allLive
  | .Swift3ImplicitObjCEntrypoint => .map OperandOwnershipKindMap.allLive
  | .PoundAssert => .map OperandOwnershipKindMap.allLive
  | .GlobalStringTablePointer => .map OperandOwnershipKindMap.allLive
  | .TypePtrAuthDiscriminator => .map OperandOwnershipKindMap.allLive
  | .IntInstrprofIncrement => .map OperandOwnershipKindMap.allLive
  | .COWBufferForReading =>
    .map (OperandOwnershipKindMap.compatibilityMap .owned .lifetimeEnding)
  | .UnsafeGuaranteed =>
    .map (OperandOwnershipKindMap.compatibilityMap .owned .lifetimeEnding)
  | .CancelAsyncTask =>
    .map (OperandOwnershipKindMap.compatibilityMap .guaranteed
      .nonLifetimeEnding)
  | .GetCurrentAsyncTask => .fatal
  | .silOperation => .fatal

/-- The instruction kinds dispatched by `FORWARD_ANY_OWNERSHIP_INST`, all of
which classify through `visitForwardingInst` over all operands. -/
inductive ForwardingInstKind where
  | Tuple
  | Struct
  | Object
  | Enum
  | OpenExistentialRef
  | Upcast
  | UncheckedRefCast
  | ConvertFunction
  | RefToBridgeObject
  | BridgeObjectToRef
  | UnconditionalCheckedCast
  | UncheckedEnumData
  | InitExistentialRef
  | DifferentiableFunction
  | LinearFunction
  | UncheckedValueCast
deriving DecidableEq, Repr

/-- The instruction kinds dispatched by `SHOULD_NEVER_VISIT_INST` — not valid
in the ownership-tracked representation or without operands; visiting one is a
fatal internal error. -/
inductive NeverVisitInstKind where
  | AllocBox
  | AllocExistentialBox
  | AllocGlobal
  | AllocStack
  | DifferentiabilityWitnessFunction
  | FloatLiteral
  | FunctionRef
  | DynamicFunctionRef
  | PreviousDynamicFunctionRef
  | GlobalAddr
  | GlobalValue
  | BaseAddrForOffset
  | IntegerLiteral
  | Metatype
  | ObjCProtocol
  | RetainValue
  | RetainValueAddr
  | StringLiteral
  | StrongRetain
  | Unreachable
  | Unwind
  | ReleaseValue
  | ReleaseValueAddr
  | StrongRelease
  | GetAsyncContinuation
deriving DecidableEq, Repr

/-- The fragment of the instruction set the verified claims reach, with the
per-instruction data each visit function reads.  A full apply site carries its
callee convention, whether the substituted callee type is non-escaping,
whether the module lowers addresses, and the role of each operand position;
a branch carries the destination block's argument ownership kinds; a return
carries the triviality of its operand's type and the declared ownership kinds
of the enclosing function's direct results. -/
inductive Inst where
  | forwarding (which : ForwardingInstKind) (ops : List Operand)
  | fullApply (calleeConv : ParameterConvention) (isNoEscape : Bool)
      (useLoweredAddresses : Bool) (roles : List ApplyOperandRole)
  | branch (destKinds : List OwnershipKind)
  | condBranch (numOperands : Nat)
  | store (src : Nat) (ops : List Operand)
  | storeBorrow (src : Nat) (ops : List Operand)
  | refElementAddr (ops : List Operand)
  | refTailAddr (ops : List Operand)
  | returnInst (operandTypeIsTrivial : Bool)
      (directResultKinds : List OwnershipKind)
  | builtin (b : BuiltinKind)
  | neverVisit (k : NeverVisitInstKind)
deriving DecidableEq, Repr

/-- `Operand::getOwnershipKindMap` restricted to the embedded instruction
fragment: dispatch on the instruction kind exactly as the
`SILInstructionVisitor` of `OperandOwnership.cpp` does, passing the operand's
position.  Store-family instructions look at the operand at that position to
compare its value against the stored source; forwarding, interior-pointer,
conditional-branch, return and builtin classifications do not depend on which
operand is asked.  An operand position outside the instruction's operand list
has no visitor counterpart and is an internal error. -/
def classify : Inst → Nat → ClassifyResult
  | .forwarding _ ops, _ => .map (visitForwardingInst ops)
  | .fullApply calleeConv isNoEscape useLoweredAddresses roles, opIndex =>
    match roles.get? opIndex with
    | Option.none => .fatal
    | some role => visitFullApply calleeConv isNoEscape useLoweredAddresses role
  | .branch destKinds, opIndex => visitBranchInst destKinds opIndex
  | .condBranch _, _ => .map OperandOwnershipKindMap.allLive
  | .store src ops, opIndex =>
    match ops.get? opIndex with
    | Option.none => .fatal
    | some o => .map (visitStoreInst src o)
  | .storeBorrow src ops, opIndex =>
    match ops.get? opIndex with
    | Option.none => .fatal
    | some o => .map (visitStoreBorrowInst src o)
  | .refElementAddr _, _ =>
    .map (OperandOwnershipKindMap.compatibilityMap .guaranteed
      .nonLifetimeEnding)
  | .refTailAddr _, _ =>
    .map (OperandOwnershipKindMap.compatibilityMap .guaranteed
      .nonLifetimeEnding)
  | .returnInst operandTypeIsTrivial directResultKinds, _ =>
    .map (visitReturnInst operandTypeIsTrivial directResultKinds)
  | .builtin b, _ => checkBuiltin b
  | .neverVisit _, _ => .fatal

/-- Well-formedness of (instruction, operand position) for this stage, as the
upstream structural verifier guarantees it: the position is within the
instruction's operand list, never-visit instruction kinds and never-visit
builtins do not occur, and a callee operand never has an inout convention. -/
def wellFormedAt : Inst → Nat → Bool
  | .forwarding _ ops, opIndex => decide (opIndex < ops.length)
  | .fullApply calleeConv _ _ roles, opIndex =>
    match roles.get? opIndex with
    | Option.none => false
    | some .callee =>
      !(calleeConv = ParameterConvention.Indirect_Inout ||
        calleeConv = ParameterConvention.Indirect_InoutAliasable)
    | some _ => true
  | .branch destKinds, opIndex => decide (opIndex < destKinds.length)
  | .condBranch numOperands, opIndex => decide (opIndex < numOperands)
  | .store _ ops, opIndex => decide (opIndex < ops.length)
  | .storeBorrow _ ops, opIndex => decide (opIndex < ops.length)
  | .refElementAddr ops, opIndex => decide (opIndex < ops.length)
  | .refTailAddr ops, opIndex => decide (opIndex < ops.length)
  | .returnInst _ _, opIndex => decide (opIndex = 0)
  | .builtin b, _ =>
    !(b = BuiltinKind.GetCurrentAsyncTask || b = BuiltinKind.silOperation)
  | .neverVisit _, _ => false

/-- The kind-merge derivation exactly as the spec words it (section 4.2), for
comparison with the classifier's own derivations: fold the kinds with the
lattice join; failure yields the empty map, a merged `none` yields all-live,
and otherwise the merged kind is bound to its forwarding constraint. -/
def specKindMergeDerivation (ks : List OwnershipKind) :
    OperandOwnershipKindMap :=
  match OwnershipKind.merge ks with
  | Option.none => OperandOwnershipKindMap.empty
  | some kind =>
    if kind = OwnershipKind.none then OperandOwnershipKindMap.allLive
    else OperandOwnershipKindMap.compatibilityMap kind
      kind.getForwardingLifetimeConstraint

/-- C1: for every operand of a forwarding instruction, when the merge of the
non-type-dependent operands' ownership kinds fails, `classify` returns the
empty compatibility map, and it returns that same empty map at every operand
position of the instruction. -/
theorem c1_forwarding_merge_failure_empty
    (which : ForwardingInstKind) (ops : List Operand) (opIndex : Nat)
    (hmerge : OwnershipKind.merge
      ((ops.filter (fun o => !o.typeDependent)).map Operand.kind) =
        Option.none) :
    classify (Inst.forwarding which ops) opIndex =
      ClassifyResult.map OperandOwnershipKindMap.empty := by
  simp [classify, visitForwardingInst, hmerge]

/-- C1 witness: merging `[owned, guaranteed]` fails, and both operands of the
tuple get the empty map. -/
theorem c1_forwarding_merge_failure_empty_witness :
    classify (Inst.forwarding ForwardingInstKind.Tuple
      [⟨0, OwnershipKind.owned, false⟩, ⟨1, OwnershipKind.guaranteed, false⟩])
        0 = ClassifyResult.map OperandOwnershipKindMap.empty ∧
    classify (Inst.forwarding ForwardingInstKind.Tuple
      [⟨0, OwnershipKind.owned, false⟩, ⟨1, OwnershipKind.guaranteed, false⟩])
        1 = ClassifyResult.map OperandOwnershipKindMap.empty :=
  ⟨c1_forwarding_merge_failure_empty ForwardingInstKind.Tuple
      [⟨0, OwnershipKind.owned, false⟩, ⟨1, OwnershipKind.guaranteed, false⟩]
      0 (by decide),
   c1_forwarding_merge_failure_empty ForwardingInstKind.Tuple
      [⟨0, OwnershipKind.owned, false⟩, ⟨1, OwnershipKind.guaranteed, false⟩]
      1 (by decide)⟩

/-- C2: for every operand of a forwarding instruction whose kind merge
succeeds, `classify` returns, uniformly over the operand positions, the
all-live map when the merged kind is `none`, the single entry
`owned ↦ lifetimeEnding` when it is `owned`, and the single entry
`guaranteed ↦ nonLifetimeEnding` when it is `guaranteed`. -/
theorem c2_forwarding_merge_success_uniform
    (which : ForwardingInstKind) (ops : List Operand) (opIndex : Nat)
    (kind : OwnershipKind)
    (hmerge : OwnershipKind.merge
      ((ops.filter (fun o => !o.typeDependent)).map Operand.kind) =
        some kind) :
    classify (Inst.forwarding which ops) opIndex =
      ClassifyResult.map
        (match kind with
         | .none => OperandOwnershipKindMap.allLive
         | .owned => OperandOwnershipKindMap.compatibilityMap
             OwnershipKind.owned UseLifetimeConstraint.lifetimeEnding
         | .guaranteed => OperandOwnershipKindMap.compatibilityMap
             OwnershipKind.guaranteed
             UseLifetimeConstraint.nonLifetimeEnding) := by
  cases kind <;>
    simp [classify, visitForwardingInst, hmerge,
      OwnershipKind.getForwardingLifetimeConstraint]

/-- C2 witness: merging `[owned, none]` yields `owned`, and both operands of
the struct get `{owned ↦ lifetimeEnding}`. -/
theorem c2_forwarding_merge_success_uniform_witness :
    classify (Inst.forwarding ForwardingInstKind.Struct
      [⟨0, OwnershipKind.owned, false⟩, ⟨1, OwnershipKind.none, false⟩]) 0 =
      ClassifyResult.map (OperandOwnershipKindMap.compatibilityMap
        OwnershipKind.owned UseLifetimeConstraint.lifetimeEnding) ∧
    classify (Inst.forwarding ForwardingInstKind.Struct
      [⟨0, OwnershipKind.owned, false⟩, ⟨1, OwnershipKind.none, false⟩]) 1 =
      ClassifyResult.map (OperandOwnershipKindMap.compatibilityMap
        OwnershipKind.owned UseLifetimeConstraint.lifetimeEnding) :=
  ⟨c2_forwarding_merge_success_uniform ForwardingInstKind.Struct
      [⟨0, OwnershipKind.owned, false⟩, ⟨1, OwnershipKind.none, false⟩]
      0 OwnershipKind.owned (by decide),
   c2_forwarding_merge_success_uniform ForwardingInstKind.Struct
      [⟨0, OwnershipKind.owned, false⟩, ⟨1, OwnershipKind.none, false⟩]
      1 OwnershipKind.owned (by decide)⟩

/-- C3: a full-apply argument operand whose parameter convention is
`Direct_Guaranteed`, or `Indirect_In_Guaranteed` with addresses not lowered,
gets exactly the map accepting `guaranteed` and `owned`, both
non-lifetime-ending — in particular `owned` is additionally accepted. -/
theorem c3_apply_argument_guaranteed_accepts_owned
    (calleeConv : ParameterConvention) (isNoEscape useLoweredAddresses : Bool)
    (roles : List ApplyOperandRole) (opIndex : Nat)
    (conv : ParameterConvention)
    (hrole : roles[opIndex]? = some (ApplyOperandRole.argument conv))
    (hconv : conv = ParameterConvention.Direct_Guaranteed ∨
      (conv = ParameterConvention.Indirect_In_Guaranteed ∧
        useLoweredAddresses = false)) :
    classify (Inst.fullApply calleeConv isNoEscape useLoweredAddresses roles)
        opIndex =
      ClassifyResult.map ⟨Option.none,
        some UseLifetimeConstraint.nonLifetimeEnding,
        some UseLifetimeConstraint.nonLifetimeEnding⟩ := by
  rcases hconv with h | ⟨h, hl⟩ <;> subst h
  · simp [classify, hrole, visitFullApply, visitApplyParameter,
      OperandOwnershipKindMap.compatibilityMap,
      OperandOwnershipKindMap.addCompatibilityConstraint,
      OperandOwnershipKindMap.empty]
  · subst hl
    simp [classify, hrole, visitFullApply, visitApplyParameter,
      OperandOwnershipKindMap.compatibilityMap,
      OperandOwnershipKindMap.addCompatibilityConstraint,
      OperandOwnershipKindMap.empty]

/-- C3 witness: an `Indirect_In_Guaranteed` argument of an apply with
addresses not lowered gets `{guaranteed ↦ nonLifetimeEnding,
owned ↦ nonLifetimeEnding}`. -/
theorem c3_apply_argument_guaranteed_accepts_owned_witness :
    classify (Inst.fullApply ParameterConvention.Direct_Owned false false
      [ApplyOperandRole.callee,
       ApplyOperandRole.argument ParameterConvention.Indirect_In_Guaranteed])
        1 =
      ClassifyResult.map ⟨Option.none,
        some UseLifetimeConstraint.nonLifetimeEnding,
        some UseLifetimeConstraint.nonLifetimeEnding⟩ :=
  c3_apply_argument_guaranteed_accepts_owned ParameterConvention.Direct_Owned
    false false
    [ApplyOperandRole.callee,
     ApplyOperandRole.argument ParameterConvention.Indirect_In_Guaranteed]
    1 ParameterConvention.Indirect_In_Guaranteed (by decide)
    (Or.inr ⟨rfl, rfl⟩)

/-- C4: the callee operand of a full apply whose callee convention is
`Direct_Guaranteed` is all-live when the substituted callee type is
non-escaping, and otherwise gets exactly `{guaranteed ↦ nonLifetimeEnding,
owned ↦ nonLifetimeEnding}`. -/
theorem c4_callee_direct_guaranteed
    (isNoEscape useLoweredAddresses : Bool) (roles : List ApplyOperandRole)
    (opIndex : Nat)
    (hrole : roles[opIndex]? = some ApplyOperandRole.callee) :
    classify (Inst.fullApply ParameterConvention.Direct_Guaranteed isNoEscape
        useLoweredAddresses roles) opIndex =
      ClassifyResult.map
        (if isNoEscape then OperandOwnershipKindMap.allLive
         else ⟨Option.none, some UseLifetimeConstraint.nonLifetimeEnding,
           some UseLifetimeConstraint.nonLifetimeEnding⟩) := by
  cases isNoEscape <;>
    simp [classify, hrole, visitFullApply, visitCallee,
      OperandOwnershipKindMap.compatibilityMap,
      OperandOwnershipKindMap.addCompatibilityConstraint,
      OperandOwnershipKindMap.empty]

/-- C4 witness: a non-escaping `Direct_Guaranteed` callee is all-live; an
escaping one gets the two-entry map. -/
theorem c4_callee_direct_guaranteed_witness :
    classify (Inst.fullApply ParameterConvention.Direct_Guaranteed true true
      [ApplyOperandRole.callee]) 0 =
      ClassifyResult.map OperandOwnershipKindMap.allLive ∧
    classify (Inst.fullApply ParameterConvention.Direct_Guaranteed false true
      [ApplyOperandRole.callee]) 0 =
      ClassifyResult.map ⟨Option.none,
        some UseLifetimeConstraint.nonLifetimeEnding,
        some UseLifetimeConstraint.nonLifetimeEnding⟩ :=
  ⟨c4_callee_direct_guaranteed true true [ApplyOperandRole.callee] 0
      (by decide),
   c4_callee_direct_guaranteed false true [ApplyOperandRole.callee] 0
      (by decide)⟩

/-- C5: a branch operand whose destination block parameter is `guaranteed`
gets `{guaranteed ↦ lifetimeEnding}`; any other declared parameter kind is
bound to its natural forwarding constraint (`lifetimeEnding` for `owned`,
`nonLifetimeEnding` for `none`); and every operand of a conditional branch is
all-live unconditionally. -/
theorem c5_branch_dest_parameter
    (destKinds : List OwnershipKind) (opIndex : Nat)
    (destKind : OwnershipKind)
    (hdest : destKinds[opIndex]? = some destKind)
    (numOperands condBrIndex : Nat) :
    classify (Inst.branch destKinds) opIndex =
      ClassifyResult.map
        (match destKind with
         | .guaranteed => OperandOwnershipKindMap.compatibilityMap
             OwnershipKind.guaranteed UseLifetimeConstraint.lifetimeEnding
         | .owned => OperandOwnershipKindMap.compatibilityMap
             OwnershipKind.owned UseLifetimeConstraint.lifetimeEnding
         | .none => OperandOwnershipKindMap.compatibilityMap
             OwnershipKind.none UseLifetimeConstraint.nonLifetimeEnding) ∧
    classify (Inst.condBranch numOperands) condBrIndex =
      ClassifyResult.map OperandOwnershipKindMap.allLive := by
  refine ⟨?_, rfl⟩
  cases destKind <;>
    simp [classify, visitBranchInst, hdest,
      OwnershipKind.getForwardingLifetimeConstraint]

/-- C5 witness: a branch operand into a `guaranteed` destination parameter
ends the borrow, and a conditional-branch operand is all-live. -/
theorem c5_branch_dest_parameter_witness :
    classify (Inst.branch [OwnershipKind.guaranteed]) 0 =
      ClassifyResult.map (OperandOwnershipKindMap.compatibilityMap
        OwnershipKind.guaranteed UseLifetimeConstraint.lifetimeEnding) ∧
    classify (Inst.condBranch 2) 0 =
      ClassifyResult.map OperandOwnershipKindMap.allLive :=
  c5_branch_dest_parameter [OwnershipKind.guaranteed] 0
    OwnershipKind.guaranteed (by decide) 2 0

/-- C6 counterexample: the claim fails as stated — the operand of a
`ref_element_addr` gets the map holding only `guaranteed ↦ nonLifetimeEnding`,
a non-`owned` entry with a non-lifetime-ending constraint, yet the map does
not accept `owned` at all. -/
theorem c6_owned_lendable_counterexample :
    classify (Inst.refElementAddr [⟨0, OwnershipKind.guaranteed, false⟩]) 0 =
      ClassifyResult.map ⟨Option.none, Option.none,
        some UseLifetimeConstraint.nonLifetimeEnding⟩ ∧
    OperandOwnershipKindMap.lookup
      ⟨Option.none, Option.none, some UseLifetimeConstraint.nonLifetimeEnding⟩
      OwnershipKind.guaranteed =
        some UseLifetimeConstraint.nonLifetimeEnding ∧
    OperandOwnershipKindMap.lookup
      ⟨Option.none, Option.none, some UseLifetimeConstraint.nonLifetimeEnding⟩
      OwnershipKind.owned = Option.none ∧
    OwnershipKind.guaranteed ≠ OwnershipKind.owned := by
  decide

/-- C6 (amended): owned-is-always-lendable holds for every map produced by the
call-argument classification `visitApplyParameter` — whenever such a map
accepts a non-`owned` kind with a non-lifetime-ending constraint, it also
accepts `owned` non-lifetime-ending. -/
theorem c6_apply_parameter_owned_lendable
    (kind : OwnershipKind) (requirement : UseLifetimeConstraint)
    (k : OwnershipKind) (hk : k ≠ OwnershipKind.owned)
    (hcompat : (visitApplyParameter kind requirement).lookup k =
      some UseLifetimeConstraint.nonLifetimeEnding) :
    (visitApplyParameter kind requirement).lookup OwnershipKind.owned =
      some UseLifetimeConstraint.nonLifetimeEnding := by
  cases kind <;> cases k <;> cases requirement <;>
    simp_all [visitApplyParameter, OperandOwnershipKindMap.lookup,
      OperandOwnershipKindMap.compatibilityMap,
      OperandOwnershipKindMap.addCompatibilityConstraint,
      OperandOwnershipKindMap.empty]

/-- C6 witness: the argument map requiring `guaranteed` non-ending also
accepts `owned` non-ending. -/
theorem c6_apply_parameter_owned_lendable_witness :
    (visitApplyParameter OwnershipKind.guaranteed
        UseLifetimeConstraint.nonLifetimeEnding).lookup OwnershipKind.owned =
      some UseLifetimeConstraint.nonLifetimeEnding :=
  c6_apply_parameter_owned_lendable OwnershipKind.guaranteed
    UseLifetimeConstraint.nonLifetimeEnding OwnershipKind.guaranteed
    (by decide) (by decide)

/-- C7: the operand of a store whose value is the stored source gets exactly
`{owned ↦ lifetimeEnding}`, and every other operand (the destination address)
is all-live. -/
theorem c7_store_source_owned_ending
    (src : Nat) (ops : List Operand) (opIndex : Nat) (o : Operand)
    (hop : ops[opIndex]? = some o) :
    classify (Inst.store src ops) opIndex =
      ClassifyResult.map
        (if o.value = src then
          OperandOwnershipKindMap.compatibilityMap OwnershipKind.owned
            UseLifetimeConstraint.lifetimeEnding
         else OperandOwnershipKindMap.allLive) := by
  by_cases h : o.value = src <;> simp [classify, hop, visitStoreInst, h]

/-- C7 witness: at a concrete store, the source operand gets
`{owned ↦ lifetimeEnding}` and the destination operand is all-live. -/
theorem c7_store_source_owned_ending_witness :
    classify (Inst.store 5 [⟨5, OwnershipKind.owned, false⟩,
      ⟨6, OwnershipKind.none, false⟩]) 0 =
      ClassifyResult.map (OperandOwnershipKindMap.compatibilityMap
        OwnershipKind.owned UseLifetimeConstraint.lifetimeEnding) ∧
    classify (Inst.store 5 [⟨5, OwnershipKind.owned, false⟩,
      ⟨6, OwnershipKind.none, false⟩]) 1 =
      ClassifyResult.map OperandOwnershipKindMap.allLive := by
  refine ⟨?_, ?_⟩
  · exact c7_store_source_owned_ending 5
      [⟨5, OwnershipKind.owned, false⟩, ⟨6, OwnershipKind.none, false⟩] 0
      ⟨5, OwnershipKind.owned, false⟩ (by decide)
  · exact c7_store_source_owned_ending 5
      [⟨5, OwnershipKind.owned, false⟩, ⟨6, OwnershipKind.none, false⟩] 1
      ⟨6, OwnershipKind.none, false⟩ (by decide)

/-- C8: the builtin classifier is total with exactly one policy per
identifier — arithmetic, comparison, bitcast and atomic builtins are
all-live; the fixed-kind builtins return `{owned ↦ lifetimeEnding}` or
`{guaranteed ↦ nonLifetimeEnding}` (the task-cancellation builtin the
latter); the never-reached builtins are a fatal error; and every identifier
falls in one of these three policies. -/
theorem c8_builtin_policies :
    (∀ b ∈ ([.Add, .Sub, .Mul, .SDiv, .UDiv, .SRem, .URem, .And, .Or, .Xor,
        .Shl, .LShr, .AShr, .ICMP_EQ, .ICMP_NE, .ICMP_SLT, .ICMP_UGT,
        .FCMP_OEQ, .FCMP_OLT, .BitCast, .Trunc, .SExt, .ZExt,
        .TruncOrBitCast, .SExtOrBitCast, .ZExtOrBitCast, .AtomicLoad,
        .AtomicStore, .AtomicRMW, .CmpXChg, .Fence] : List BuiltinKind),
      checkBuiltin b = ClassifyResult.map OperandOwnershipKindMap.allLive) ∧
    checkBuiltin BuiltinKind.COWBufferForReading =
      ClassifyResult.map (OperandOwnershipKindMap.compatibilityMap
        OwnershipKind.owned UseLifetimeConstraint.lifetimeEnding) ∧
    checkBuiltin BuiltinKind.UnsafeGuaranteed =
      ClassifyResult.map (OperandOwnershipKindMap.compatibilityMap
        OwnershipKind.owned UseLifetimeConstraint.lifetimeEnding) ∧
    checkBuiltin BuiltinKind.CancelAsyncTask =
      ClassifyResult.map (OperandOwnershipKindMap.compatibilityMap
        OwnershipKind.guaranteed UseLifetimeConstraint.nonLifetimeEnding) ∧
    checkBuiltin BuiltinKind.GetCurrentAsyncTask = ClassifyResult.fatal ∧
    checkBuiltin BuiltinKind.silOperation = ClassifyResult.fatal ∧
    (∀ b : BuiltinKind,
      checkBuiltin b = ClassifyResult.map OperandOwnershipKindMap.allLive ∨
      checkBuiltin b = ClassifyResult.map
        (OperandOwnershipKindMap.compatibilityMap OwnershipKind.owned
          UseLifetimeConstraint.lifetimeEnding) ∨
      checkBuiltin b = ClassifyResult.map
        (OperandOwnershipKindMap.compatibilityMap OwnershipKind.guaranteed
          UseLifetimeConstraint.nonLifetimeEnding) ∨
      checkBuiltin b = ClassifyResult.fatal) := by
  refine ⟨by decide, rfl, rfl, rfl, rfl, rfl, ?_⟩
  intro b
  cases b <;> decide

/-- C8 witness: the addition builtin is all-live, by the category clause of
the policy theorem, and its dispatch is one of the three policies. -/
theorem c8_builtin_policies_witness :
    checkBuiltin BuiltinKind.Add =
      ClassifyResult.map OperandOwnershipKindMap.allLive ∧
    checkBuiltin BuiltinKind.CancelAsyncTask =
      ClassifyResult.map (OperandOwnershipKindMap.compatibilityMap
        OwnershipKind.guaranteed UseLifetimeConstraint.nonLifetimeEnding) :=
  ⟨c8_builtin_policies.1 BuiltinKind.Add (by decide),
   c8_builtin_policies.2.2.2.1⟩

/-- C9: classifying a never-visit instruction kind is fatal at every operand
position; so is classifying a callee operand whose declared convention is an
inout convention; and at every well-formed (instruction, operand position)
pair the classifier never takes the fatal branch. -/
theorem c9_never_visit_fatal_unreachable :
    (∀ (k : NeverVisitInstKind) (opIndex : Nat),
      classify (Inst.neverVisit k) opIndex = ClassifyResult.fatal) ∧
    (∀ (calleeConv : ParameterConvention)
        (isNoEscape useLoweredAddresses : Bool)
        (roles : List ApplyOperandRole) (opIndex : Nat),
      roles[opIndex]? = some ApplyOperandRole.callee →
      (calleeConv = ParameterConvention.Indirect_Inout ∨
        calleeConv = ParameterConvention.Indirect_InoutAliasable) →
      classify (Inst.fullApply calleeConv isNoEscape useLoweredAddresses
        roles) opIndex = ClassifyResult.fatal) ∧
    (∀ (i : Inst) (opIndex : Nat), wellFormedAt i opIndex = true →
      classify i opIndex ≠ ClassifyResult.fatal) := by
  refine ⟨fun k opIndex => rfl, ?_, ?_⟩
  · intro calleeConv isNoEscape useLoweredAddresses roles opIndex hrole hconv
    rcases hconv with h | h <;> subst h <;>
      simp [classify, hrole, visitFullApply, visitCallee]
  · intro i opIndex hwf
    cases i with
    | forwarding which ops => simp [classify]
    | fullApply calleeConv isNoEscape useLoweredAddresses roles =>
      cases hr : roles[opIndex]? with
      | none => simp [wellFormedAt, hr] at hwf
      | some role =>
        cases role with
        | callee =>
          simp only [wellFormedAt, hr] at hwf
          cases calleeConv <;>
            simp_all [classify, hr, visitFullApply, visitCallee] <;>
            cases isNoEscape <;> simp
        | indirectResult => simp [classify, hr, visitFullApply]
        | typeDependent => simp [classify, hr, visitFullApply]
        | argument conv =>
          cases conv <;> cases useLoweredAddresses <;>
            simp [classify, hr, visitFullApply, visitApplyParameter]
    | branch destKinds =>
      have hlt : opIndex < destKinds.length := by
        simpa [wellFormedAt] using hwf
      cases hk : destKinds[opIndex]? with
      | none =>
        rw [List.getElem?_eq_none_iff] at hk
        omega
      | some destKind =>
        by_cases hg : destKind = OwnershipKind.guaranteed <;>
          simp [classify, visitBranchInst, hk, hg]
    | condBranch numOperands => simp [classify]
    | store src ops =>
      have hlt : opIndex < ops.length := by
        simpa [wellFormedAt] using hwf
      cases hk : ops[opIndex]? with
      | none =>
        rw [List.getElem?_eq_none_iff] at hk
        omega
      | some o =>
        by_cases hv : o.value = src <;>
          simp [classify, hk, visitStoreInst, hv]
    | storeBorrow src ops =>
      have hlt : opIndex < ops.length := by
        simpa [wellFormedAt] using hwf
      cases hk : ops[opIndex]? with
      | none =>
        rw [List.getElem?_eq_none_iff] at hk
        omega
      | some o =>
        by_cases hv : o.value = src <;>
          simp [classify, hk, visitStoreBorrowInst, hv]
    | refElementAddr ops => simp [classify]
    | refTailAddr ops => simp [classify]
    | returnInst operandTypeIsTrivial directResultKinds =>
      cases operandTypeIsTrivial <;> simp [classify]
    | builtin b =>
      simp only [wellFormedAt] at hwf
      cases b <;> simp only [classify] <;> revert hwf <;> decide
    | neverVisit k => simp [wellFormedAt] at hwf

/-- C9 witness: a retained-allocation form is fatal, an inout callee is
fatal, and a well-formed branch operand does not reach the fatal branch. -/
theorem c9_never_visit_fatal_unreachable_witness :
    classify (Inst.neverVisit NeverVisitInstKind.AllocBox) 0 =
      ClassifyResult.fatal ∧
    classify (Inst.fullApply ParameterConvention.Indirect_Inout false true
      [ApplyOperandRole.callee]) 0 = ClassifyResult.fatal ∧
    classify (Inst.branch [OwnershipKind.owned]) 0 ≠ ClassifyResult.fatal :=
  ⟨c9_never_visit_fatal_unreachable.1 NeverVisitInstKind.AllocBox 0,
   c9_never_visit_fatal_unreachable.2.1 ParameterConvention.Indirect_Inout
     false true [ApplyOperandRole.callee] 0 (by decide) (Or.inl rfl),
   c9_never_visit_fatal_unreachable.2.2 (Inst.branch [OwnershipKind.owned]) 0
     (by decide)⟩

/-- C10 counterexample: the claim fails as stated — a return of a non-trivial
operand with a single direct result of kind `none` yields the single entry
`{none ↦ nonLifetimeEnding}`, while the forwarding merge derivation of the
same kinds yields the all-live map. -/
theorem c10_return_counterexample :
    classify (Inst.returnInst false [OwnershipKind.none]) 0 =
      ClassifyResult.map (OperandOwnershipKindMap.compatibilityMap
        OwnershipKind.none UseLifetimeConstraint.nonLifetimeEnding) ∧
    specKindMergeDerivation [OwnershipKind.none] =
      OperandOwnershipKindMap.allLive ∧
    OperandOwnershipKindMap.compatibilityMap OwnershipKind.none
      UseLifetimeConstraint.nonLifetimeEnding ≠
        OperandOwnershipKindMap.allLive := by
  decide

/-- C10 (amended): for a return whose operand type is non-trivial, zero
declared direct results yield the empty map (not all-live and not a fatal
error); one or more results are merged with the same kind merge — a failed
merge also yields the empty map, and a successful merge binds the merged kind
to its natural forwarding constraint, without the forwarding path's
`none`-to-all-live step. -/
theorem c10_return_merges_direct_results
    (directResultKinds : List OwnershipKind) (opIndex : Nat) :
    (directResultKinds = [] →
      classify (Inst.returnInst false directResultKinds) opIndex =
        ClassifyResult.map OperandOwnershipKindMap.empty) ∧
    (OwnershipKind.merge directResultKinds = Option.none →
      classify (Inst.returnInst false directResultKinds) opIndex =
        ClassifyResult.map OperandOwnershipKindMap.empty) ∧
    (∀ base, directResultKinds ≠ [] →
      OwnershipKind.merge directResultKinds = some base →
      classify (Inst.returnInst false directResultKinds) opIndex =
        ClassifyResult.map (OperandOwnershipKindMap.compatibilityMap base
          base.getForwardingLifetimeConstraint)) := by
  refine ⟨?_, ?_, ?_⟩
  · intro h; subst h; rfl
  · intro hmerge
    have hne : ¬ directResultKinds.isEmpty = true := by
      intro he
      rw [List.isEmpty_iff] at he
      subst he
      simp [OwnershipKind.merge] at hmerge
    simp [classify, visitReturnInst, hne, hmerge]
  · intro base hne hmerge
    have hne' : ¬ directResultKinds.isEmpty = true := by
      simpa [List.isEmpty_iff] using hne
    simp [classify, visitReturnInst, hne', hmerge]

/-- C10 witness: with no direct results the map is empty; with the single
direct result kind `owned` the return operand requires
`{owned ↦ lifetimeEnding}`. -/
theorem c10_return_merges_direct_results_witness :
    classify (Inst.returnInst false []) 0 =
      ClassifyResult.map OperandOwnershipKindMap.empty ∧
    classify (Inst.returnInst false [OwnershipKind.owned]) 0 =
      ClassifyResult.map (OperandOwnershipKindMap.compatibilityMap
        OwnershipKind.owned UseLifetimeConstraint.lifetimeEnding) :=
  ⟨(c10_return_merges_direct_results [] 0).1 rfl,
   (c10_return_merges_direct_results [OwnershipKind.owned] 0).2.2
     OwnershipKind.owned (by decide) (by decide)⟩

end OperandOwnership
